import Mathlib

/-!
Shallow embedding of the `@iworldafric/timelog` core library
(policies, workflows, locks, finance) and verification of the spec's
claims about it.

Modelling conventions:
* JS `Date` instants are epoch milliseconds, embedded as `Int`
  (`Date.getTime()` is the identity).
* JS `number` arithmetic in the finance engine is embedded as exact
  rational arithmetic (`ℚ`); `Math.round` is round-half-up `⌊x + 1/2⌋`.
* `date-fns` `differenceInMinutes` truncates toward zero (`Int.tdiv`);
  `areIntervalsOverlapping` on well-formed intervals is the standard
  exclusive/inclusive comparison pair.
* `string | undefined` fields are `Option String`; the JS truthiness
  guards (`lock.projectId && ...`) are embedded as `Option` pattern
  matches (ids are cuids, never the empty string).
* Thrown exceptions are embedded as `Except`: workflow functions return
  `Except WorkflowError ...`, lock validation returns
  `Except LockConflict Unit`.
-/

set_option autoImplicit false

namespace Timelog

/-- `TimeEntryStatus` enum from `types.ts`. -/
inductive TimeEntryStatus where
  | DRAFT
  | SUBMITTED
  | APPROVED
  | REJECTED
  | LOCKED
  | BILLED
  deriving DecidableEq, Repr, Fintype

/-- The string value of each enum member (`DRAFT = 'DRAFT'`, ...). -/
def statusToString : TimeEntryStatus → String
  | .DRAFT => "DRAFT"
  | .SUBMITTED => "SUBMITTED"
  | .APPROVED => "APPROVED"
  | .REJECTED => "REJECTED"
  | .LOCKED => "LOCKED"
  | .BILLED => "BILLED"

/-- Result shape `{ valid: boolean; error?: string }` used by the
validation helpers in `policies.ts`. -/
structure ValidationResult where
  valid : Bool
  error : Option String
  deriving DecidableEq, Repr

/-! ## Duration & overlap policy (`policies.ts`) -/

/-- `RoundingInterval` enum from `policies.ts`. -/
inductive RoundingInterval where
  | NONE
  | ONE_MINUTE
  | FIVE_MINUTES
  | SIX_MINUTES
  | FIFTEEN_MINUTES
  deriving DecidableEq, Repr

/-- Numeric value of each `RoundingInterval` member (0, 1, 5, 6, 15). -/
def RoundingInterval.minutes : RoundingInterval → ℚ
  | .NONE => 0
  | .ONE_MINUTE => 1
  | .FIVE_MINUTES => 5
  | .SIX_MINUTES => 6
  | .FIFTEEN_MINUTES => 15

/-- JS `Math.round`: round half toward positive infinity, i.e. the
floor of `q + 1/2` (`Rat.floor` is `⌊·⌋` on `ℚ`, see
`Rat.floor_def'`). -/
def jsRound (q : ℚ) : Int := Rat.floor (q + 1 / 2)

/-- `roundDuration(minutes, interval)` from `policies.ts`:
`Math.round(minutes / interval) * interval`, identity for `NONE`. -/
def roundDuration (minutes : ℚ) (interval : RoundingInterval) : ℚ :=
  if interval = RoundingInterval.NONE then minutes
  else (jsRound (minutes / interval.minutes) : ℚ) * interval.minutes

/-- `date-fns` `differenceInMinutes(dateLeft, dateRight)`: elapsed
milliseconds divided by 60000, truncated toward zero. -/
def differenceInMinutes (dateLeft dateRight : Int) : Int :=
  Int.tdiv (dateLeft - dateRight) 60000

/-- `calculateDuration(startAt, endAt)` from `policies.ts`:
`Math.abs(differenceInMinutes(endAt, startAt))`. -/
def calculateDuration (startAt endAt : Int) : Int :=
  |differenceInMinutes endAt startAt|

/-- `date-fns` `areIntervalsOverlapping` with `inclusive: false`
(on well-formed intervals, start ≤ end). -/
def overlapExcl (s1 e1 s2 e2 : Int) : Bool :=
  decide (s1 < e2 ∧ s2 < e1)

/-- `date-fns` `areIntervalsOverlapping` with `inclusive: true`
(on well-formed intervals, start ≤ end). -/
def overlapIncl (s1 e1 s2 e2 : Int) : Bool :=
  decide (s1 ≤ e2 ∧ s2 ≤ e1)

/-- The `Pick<TimeEntry, 'startAt' | 'endAt'>` argument shape of
`detectOverlap`. -/
structure TimeInterval where
  startAt : Int
  endAt : Int
  deriving DecidableEq, Repr

/-- `detectOverlap(entry1, entry2)` from `policies.ts`: exclusive-bound
interval overlap. -/
def detectOverlap (entry1 entry2 : TimeInterval) : Bool :=
  overlapExcl entry1.startAt entry1.endAt entry2.startAt entry2.endAt

/-- `validateDuration(startAt, endAt)` from `policies.ts`. -/
def validateDuration (startAt endAt : Int) : ValidationResult :=
  let duration := calculateDuration startAt endAt
  if duration ≤ 0 then
    { valid := false, error := some "End time must be after start time" }
  else if duration > 1440 then
    { valid := false, error := some "Time entry cannot exceed 24 hours" }
  else if duration < 1 then
    { valid := false, error := some "Time entry must be at least 1 minute" }
  else
    { valid := true, error := none }

/-! ## Status guards and transition table (`policies.ts`) -/

/-- `canEditTimeEntry(status)`. -/
def canEditTimeEntry (status : TimeEntryStatus) : Bool :=
  status = TimeEntryStatus.DRAFT || status = TimeEntryStatus.REJECTED

/-- `canSubmitTimeEntry(status)`. -/
def canSubmitTimeEntry (status : TimeEntryStatus) : Bool :=
  status = TimeEntryStatus.DRAFT || status = TimeEntryStatus.REJECTED

/-- `canApproveTimeEntry(status)`. -/
def canApproveTimeEntry (status : TimeEntryStatus) : Bool :=
  status = TimeEntryStatus.SUBMITTED

/-- `canRejectTimeEntry(status)`. -/
def canRejectTimeEntry (status : TimeEntryStatus) : Bool :=
  status = TimeEntryStatus.SUBMITTED || status = TimeEntryStatus.APPROVED

/-- `canLockTimeEntry(status)`. -/
def canLockTimeEntry (status : TimeEntryStatus) : Bool :=
  status = TimeEntryStatus.APPROVED

/-- `canBillTimeEntry(status)`. -/
def canBillTimeEntry (status : TimeEntryStatus) : Bool :=
  status = TimeEntryStatus.LOCKED

/-- The `validTransitions` record literal inside
`validateStatusTransition` in `policies.ts`. -/
def validTransitions : TimeEntryStatus → List TimeEntryStatus
  | .DRAFT => [.SUBMITTED]
  | .SUBMITTED => [.APPROVED, .REJECTED]
  | .APPROVED => [.LOCKED, .REJECTED]
  | .REJECTED => [.DRAFT, .SUBMITTED]
  | .LOCKED => [.BILLED]
  | .BILLED => []

/-- `validateStatusTransition(currentStatus, newStatus)` from
`policies.ts`. -/
def validateStatusTransition (currentStatus newStatus : TimeEntryStatus) :
    ValidationResult :=
  let allowed := validTransitions currentStatus
  if newStatus ∈ allowed then
    { valid := true, error := none }
  else
    { valid := false
      error := some ("Cannot transition from " ++ statusToString currentStatus
        ++ " to " ++ statusToString newStatus) }

/-- The `{ periodStart; periodEnd; isActive }` lock shape accepted by
`isPeriodLocked` and the workflow functions. -/
structure LockPeriod where
  periodStart : Int
  periodEnd : Int
  isActive : Bool
  deriving DecidableEq, Repr

/-- `isPeriodLocked(startAt, endAt, locks)` from `policies.ts`:
some active lock overlaps the interval with inclusive bounds.
Note: no scope (project/client) filtering at all. -/
def isPeriodLocked (startAt endAt : Int) (locks : List LockPeriod) : Bool :=
  locks.any fun lock =>
    lock.isActive && overlapIncl startAt endAt lock.periodStart lock.periodEnd

/-! ## Data model (`types.ts`) -/

/-- `TimeCategoryType` enum from `types.ts`. -/
inductive TimeCategoryType where
  | BILLABLE
  | NON_BILLABLE
  | INTERNAL
  | TRAINING
  | MEETING
  deriving DecidableEq, Repr

/-- `TimeEntry` from `types.ts`; optional fields are `Option`. -/
structure TimeEntry where
  id : String
  projectId : String
  taskId : Option String
  developerId : String
  clientId : String
  startAt : Int
  endAt : Int
  durationMinutes : ℚ
  billable : Bool
  category : TimeCategoryType
  tags : List String
  status : TimeEntryStatus
  notes : Option String
  approvedBy : Option String
  approvedAt : Option Int
  rejectedBy : Option String
  rejectedAt : Option Int
  rejectionReason : Option String
  lockedAt : Option Int
  billedAt : Option Int
  invoiceId : Option String
  createdAt : Int
  updatedAt : Int
  deriving DecidableEq, Repr

/-- `TimeLock` from `types.ts`. -/
structure TimeLock where
  id : String
  projectId : Option String
  clientId : Option String
  periodStart : Int
  periodEnd : Int
  reason : String
  lockedBy : String
  lockedAt : Int
  unlockedBy : Option String
  unlockedAt : Option Int
  isActive : Bool
  deriving DecidableEq, Repr

/-- `RateCard` from `types.ts`. -/
structure RateCard where
  id : String
  developerId : Option String
  projectId : Option String
  clientId : Option String
  hourlyRate : ℚ
  currency : String
  effectiveFrom : Int
  effectiveTo : Option Int
  isActive : Bool
  createdAt : Int
  updatedAt : Int
  deriving DecidableEq, Repr

/-! ## Lock conflict model (`locks.ts`) -/

/-- Scope test in `checkEntryLockConflict`:
`(lock.projectId && lock.projectId === entry.projectId) ||
 (lock.clientId && lock.clientId === entry.clientId)`. -/
def scopeMatchesEntry (lock : TimeLock) (entry : TimeEntry) : Bool :=
  (match lock.projectId with
    | some p => decide (p = entry.projectId)
    | none => false) ||
  (match lock.clientId with
    | some c => decide (c = entry.clientId)
    | none => false)

/-- `checkEntryLockConflict(entry, locks)` from `locks.ts`: the first
active lock matching the entry's scope and overlapping (inclusive
bounds) its interval, else `null`. -/
def checkEntryLockConflict (entry : TimeEntry) (locks : List TimeLock) :
    Option TimeLock :=
  let activeLocks := locks.filter (·.isActive)
  activeLocks.find? fun lock =>
    scopeMatchesEntry lock entry &&
    overlapIncl entry.startAt entry.endAt lock.periodStart lock.periodEnd

/-- `checkPeriodLockConflict(periodStart, periodEnd, projectId?,
clientId?, locks)` from `locks.ts`. The truthiness guard here is on the
caller-supplied ids. -/
def checkPeriodLockConflict (periodStart periodEnd : Int)
    (projectId clientId : Option String) (locks : List TimeLock) :
    Option TimeLock :=
  let activeLocks := locks.filter (·.isActive)
  activeLocks.find? fun lock =>
    ((match projectId with
       | some p => decide (lock.projectId = some p)
       | none => false) ||
     (match clientId with
       | some c => decide (lock.clientId = some c)
       | none => false)) &&
    overlapIncl periodStart periodEnd lock.periodStart lock.periodEnd

/-- `CreateLockParams` from `locks.ts`. -/
structure CreateLockParams where
  projectId : Option String
  clientId : Option String
  periodStart : Int
  periodEnd : Int
  reason : String
  lockedBy : String
  deriving DecidableEq, Repr

/-- The payload of the `ConflictError` thrown by `validateLockOverlap`
(its message embeds the conflicting lock's period). -/
structure LockConflict where
  periodStart : Int
  periodEnd : Int
  deriving DecidableEq, Repr

/-- Scope test in `validateLockOverlap`:
`(newLock.projectId && lock.projectId === newLock.projectId) ||
 (newLock.clientId && lock.clientId === newLock.clientId)`. -/
def sameScope (newLock : CreateLockParams) (lock : TimeLock) : Bool :=
  (match newLock.projectId with
    | some p => decide (lock.projectId = some p)
    | none => false) ||
  (match newLock.clientId with
    | some c => decide (lock.clientId = some c)
    | none => false)

/-- `validateLockOverlap(newLock, existingLocks)` from `locks.ts`:
throws `ConflictError` on the first active same-scope lock that
overlaps the new lock with exclusive bounds. -/
def validateLockOverlap (newLock : CreateLockParams)
    (existingLocks : List TimeLock) : Except LockConflict Unit :=
  let activeLocks := existingLocks.filter (·.isActive)
  match activeLocks.find? (fun lock =>
      sameScope newLock lock &&
      overlapExcl newLock.periodStart newLock.periodEnd
        lock.periodStart lock.periodEnd) with
  | some lock => Except.error ⟨lock.periodStart, lock.periodEnd⟩
  | none => Except.ok ()

/-! ## Rate resolution & cost engine (`finance.ts`) -/

/-- Stable descending sort by `effectiveFrom` followed by `[0]`, as in
`resolveEffectiveRate`'s `.sort((a, b) => b.effectiveFrom.getTime() -
a.effectiveFrom.getTime())[0]`: the first listed card whose
`effectiveFrom` is maximal (JS array sort is stable). -/
def pickLatest : List RateCard → Option RateCard
  | [] => none
  | c :: cs =>
      some (cs.foldl
        (fun best card =>
          if best.effectiveFrom < card.effectiveFrom then card else best) c)

/-- The active-card filter at the top of `resolveEffectiveRate`. -/
def cardActiveAt (card : RateCard) (atDate : Int) : Bool :=
  card.isActive && decide (card.effectiveFrom ≤ atDate) &&
  (match card.effectiveTo with
    | some t => decide (atDate ≤ t)
    | none => true)

/-- `resolveEffectiveRate(entry, rateCards, atDate)` from `finance.ts`:
project match, else client match, else developer default (card with
neither project nor client), else `null`; each tier picks the latest
`effectiveFrom`. -/
def resolveEffectiveRate (entry : TimeEntry) (rateCards : List RateCard)
    (atDate : Int) : Option RateCard :=
  let activeCards := rateCards.filter (cardActiveAt · atDate)
  match pickLatest (activeCards.filter fun card =>
      decide (card.projectId = some entry.projectId)) with
  | some projectRate => some projectRate
  | none =>
    match pickLatest (activeCards.filter fun card =>
        decide (card.clientId = some entry.clientId)) with
    | some clientRate => some clientRate
    | none =>
      pickLatest (activeCards.filter fun card =>
        decide (card.developerId = some entry.developerId) &&
        decide (card.projectId = none) && decide (card.clientId = none))

/-- `EntryCost` from `finance.ts`. -/
structure EntryCost where
  entryId : String
  projectId : String
  developerId : String
  originalMinutes : ℚ
  roundedMinutes : ℚ
  hourlyRate : ℚ
  currency : String
  cost : ℚ
  deriving DecidableEq, Repr

/-- The cost record built in the loop body of `calculateEntryCosts`
for a billable entry with resolved rate `rate`. -/
def mkEntryCost (entry : TimeEntry) (rate : RateCard)
    (roundingInterval : RoundingInterval) : EntryCost :=
  let roundedMinutes := roundDuration entry.durationMinutes roundingInterval
  let hours := roundedMinutes / 60
  { entryId := entry.id
    projectId := entry.projectId
    developerId := entry.developerId
    originalMinutes := entry.durationMinutes
    roundedMinutes := roundedMinutes
    hourlyRate := rate.hourlyRate
    currency := rate.currency
    cost := (jsRound (hours * rate.hourlyRate * 100) : ℚ) / 100 }

/-- `calculateEntryCosts(params)` from `finance.ts`: skip non-billable
entries, skip entries with no resolved rate, otherwise push a cost
record. -/
def calculateEntryCosts (entries : List TimeEntry) (rateCards : List RateCard)
    (roundingInterval : RoundingInterval) (atDate : Int) : List EntryCost :=
  match entries with
  | [] => []
  | entry :: rest =>
    if !entry.billable then
      calculateEntryCosts rest rateCards roundingInterval atDate
    else
      match resolveEffectiveRate entry rateCards atDate with
      | none => calculateEntryCosts rest rateCards roundingInterval atDate
      | some rate =>
          mkEntryCost entry rate roundingInterval ::
            calculateEntryCosts rest rateCards roundingInterval atDate

/-- `calculateEntryCosts` with its defaulted `roundingInterval`
parameter (`= RoundingInterval.FIFTEEN_MINUTES` in the source). -/
def calculateEntryCostsDefault (entries : List TimeEntry)
    (rateCards : List RateCard) (atDate : Int) : List EntryCost :=
  calculateEntryCosts entries rateCards RoundingInterval.FIFTEEN_MINUTES atDate

/-! ## Workflow engine (`workflows.ts`) -/

/-- `WorkflowContext` from `workflows.ts`. -/
structure WorkflowContext where
  userId : String
  userRole : String
  timestamp : Int
  deriving DecidableEq, Repr

/-- The two exception kinds thrown by the workflow functions
(`InvalidStatusTransitionError`, `PeriodLockedError` from
`errors.ts`). -/
inductive WorkflowError where
  | invalidStatusTransition (currentStatus targetStatus : TimeEntryStatus)
  | periodLocked (periodStart periodEnd : Int)
  deriving DecidableEq, Repr

/-- The metadata bag attached to workflow audit logs; fields not set by
a given operation are `none`. -/
structure AuditMetadata where
  userRole : Option String
  previousStatus : Option TimeEntryStatus
  newStatus : Option TimeEntryStatus
  reason : Option String
  invoiceId : Option String
  deriving DecidableEq, Repr

/-- `Omit<AuditLog, 'id' | 'createdAt'>`, the audit record shape
returned by the workflow functions. -/
structure AuditLogRec where
  entityType : String
  entityId : String
  action : String
  userId : String
  metadata : AuditMetadata
  deriving DecidableEq, Repr

/-- The common loop shape of the five batch workflow functions: walk the
entries in order; the first entry failing its check throws (discarding
everything); otherwise accumulate one updated entry and one audit log
per input entry, in order. -/
def processEntries (check : TimeEntry → Option WorkflowError)
    (update : TimeEntry → TimeEntry) (mkLog : TimeEntry → AuditLogRec) :
    List TimeEntry → Except WorkflowError (List TimeEntry × List AuditLogRec)
  | [] => Except.ok ([], [])
  | entry :: rest =>
    match check entry with
    | some err => Except.error err
    | none =>
      match processEntries check update mkLog rest with
      | Except.error err => Except.error err
      | Except.ok (entries, auditLogs) =>
          Except.ok (update entry :: entries, mkLog entry :: auditLogs)

/-- Guard sequence in the `submitTimeEntries` loop body. -/
def submitCheck (locks : List LockPeriod) (entry : TimeEntry) :
    Option WorkflowError :=
  if !canSubmitTimeEntry entry.status then
    some (WorkflowError.invalidStatusTransition entry.status
      TimeEntryStatus.SUBMITTED)
  else if isPeriodLocked entry.startAt entry.endAt locks then
    some (WorkflowError.periodLocked entry.startAt entry.endAt)
  else none

/-- Entry update in `submitTimeEntries`. -/
def submitUpdate (context : WorkflowContext) (entry : TimeEntry) : TimeEntry :=
  { entry with status := TimeEntryStatus.SUBMITTED
               updatedAt := context.timestamp }

/-- Audit record pushed by `submitTimeEntries`. -/
def submitLog (context : WorkflowContext) (entry : TimeEntry) : AuditLogRec :=
  { entityType := "TimeEntry"
    entityId := entry.id
    action := "SUBMIT"
    userId := context.userId
    metadata := { userRole := some context.userRole
                  previousStatus := some entry.status
                  newStatus := some TimeEntryStatus.SUBMITTED
                  reason := none
                  invoiceId := none } }

/-- `submitTimeEntries({ entries, context, locks })` from
`workflows.ts`. -/
def submitTimeEntries (entries : List TimeEntry) (context : WorkflowContext)
    (locks : List LockPeriod) :
    Except WorkflowError (List TimeEntry × List AuditLogRec) :=
  processEntries (submitCheck locks) (submitUpdate context)
    (submitLog context) entries

/-- Guard sequence in the `approveTimeEntries` loop body. -/
def approveCheck (locks : List LockPeriod) (entry : TimeEntry) :
    Option WorkflowError :=
  if !canApproveTimeEntry entry.status then
    some (WorkflowError.invalidStatusTransition entry.status
      TimeEntryStatus.APPROVED)
  else if isPeriodLocked entry.startAt entry.endAt locks then
    some (WorkflowError.periodLocked entry.startAt entry.endAt)
  else none

/-- Entry update in `approveTimeEntries`. -/
def approveUpdate (context : WorkflowContext) (entry : TimeEntry) : TimeEntry :=
  { entry with status := TimeEntryStatus.APPROVED
               approvedBy := some context.userId
               approvedAt := some context.timestamp
               updatedAt := context.timestamp }

/-- Audit record pushed by `approveTimeEntries`. -/
def approveLog (context : WorkflowContext) (entry : TimeEntry) : AuditLogRec :=
  { entityType := "TimeEntry"
    entityId := entry.id
    action := "APPROVE"
    userId := context.userId
    metadata := { userRole := some context.userRole
                  previousStatus := some entry.status
                  newStatus := some TimeEntryStatus.APPROVED
                  reason := none
                  invoiceId := none } }

/-- `approveTimeEntries({ entries, context, locks })` from
`workflows.ts`. -/
def approveTimeEntries (entries : List TimeEntry) (context : WorkflowContext)
    (locks : List LockPeriod) :
    Except WorkflowError (List TimeEntry × List AuditLogRec) :=
  processEntries (approveCheck locks) (approveUpdate context)
    (approveLog context) entries

/-- Guard in the `rejectTimeEntries` loop body. The source performs no
validation of `reason` whatsoever. -/
def rejectCheck (entry : TimeEntry) : Option WorkflowError :=
  if !canRejectTimeEntry entry.status then
    some (WorkflowError.invalidStatusTransition entry.status
      TimeEntryStatus.REJECTED)
  else none

/-- Entry update in `rejectTimeEntries`. -/
def rejectUpdate (reason : String) (context : WorkflowContext)
    (entry : TimeEntry) : TimeEntry :=
  { entry with status := TimeEntryStatus.REJECTED
               rejectedBy := some context.userId
               rejectedAt := some context.timestamp
               rejectionReason := some reason
               updatedAt := context.timestamp }

/-- Audit record pushed by `rejectTimeEntries` (metadata carries the
reason). -/
def rejectLog (reason : String) (context : WorkflowContext)
    (entry : TimeEntry) : AuditLogRec :=
  { entityType := "TimeEntry"
    entityId := entry.id
    action := "REJECT"
    userId := context.userId
    metadata := { userRole := some context.userRole
                  previousStatus := some entry.status
                  newStatus := some TimeEntryStatus.REJECTED
                  reason := some reason
                  invoiceId := none } }

/-- `rejectTimeEntries({ entries, reason, context })` from
`workflows.ts`. -/
def rejectTimeEntries (entries : List TimeEntry) (reason : String)
    (context : WorkflowContext) :
    Except WorkflowError (List TimeEntry × List AuditLogRec) :=
  processEntries rejectCheck (rejectUpdate reason context)
    (rejectLog reason context) entries

/-- Guard in the `lockTimeEntries` loop body. -/
def lockCheck (entry : TimeEntry) : Option WorkflowError :=
  if !canLockTimeEntry entry.status then
    some (WorkflowError.invalidStatusTransition entry.status
      TimeEntryStatus.LOCKED)
  else none

/-- Entry update in `lockTimeEntries`. -/
def lockUpdate (context : WorkflowContext) (entry : TimeEntry) : TimeEntry :=
  { entry with status := TimeEntryStatus.LOCKED
               lockedAt := some context.timestamp
               updatedAt := context.timestamp }

/-- Audit record pushed by `lockTimeEntries` (optional reason in
metadata). -/
def lockLog (reason : Option String) (context : WorkflowContext)
    (entry : TimeEntry) : AuditLogRec :=
  { entityType := "TimeEntry"
    entityId := entry.id
    action := "LOCK"
    userId := context.userId
    metadata := { userRole := some context.userRole
                  previousStatus := some entry.status
                  newStatus := some TimeEntryStatus.LOCKED
                  reason := reason
                  invoiceId := none } }

/-- `lockTimeEntries({ entries, reason, context })` from
`workflows.ts`. -/
def lockTimeEntries (entries : List TimeEntry) (reason : Option String)
    (context : WorkflowContext) :
    Except WorkflowError (List TimeEntry × List AuditLogRec) :=
  processEntries lockCheck (lockUpdate context)
    (lockLog reason context) entries

/-- Guard in the `billTimeEntries` loop body: the literal check
`entry.status !== TimeEntryStatus.LOCKED`. -/
def billCheck (entry : TimeEntry) : Option WorkflowError :=
  if entry.status ≠ TimeEntryStatus.LOCKED then
    some (WorkflowError.invalidStatusTransition entry.status
      TimeEntryStatus.BILLED)
  else none

/-- Entry update in `billTimeEntries`. -/
def billUpdate (invoiceId : String) (context : WorkflowContext)
    (entry : TimeEntry) : TimeEntry :=
  { entry with status := TimeEntryStatus.BILLED
               billedAt := some context.timestamp
               invoiceId := some invoiceId
               updatedAt := context.timestamp }

/-- Audit record pushed by `billTimeEntries` (metadata carries the
invoice id). -/
def billLog (invoiceId : String) (context : WorkflowContext)
    (entry : TimeEntry) : AuditLogRec :=
  { entityType := "TimeEntry"
    entityId := entry.id
    action := "BILL"
    userId := context.userId
    metadata := { userRole := some context.userRole
                  previousStatus := some entry.status
                  newStatus := some TimeEntryStatus.BILLED
                  reason := none
                  invoiceId := some invoiceId } }

/-- `billTimeEntries({ entries, invoiceId, context })` from
`workflows.ts`. -/
def billTimeEntries (entries : List TimeEntry) (invoiceId : String)
    (context : WorkflowContext) :
    Except WorkflowError (List TimeEntry × List AuditLogRec) :=
  processEntries billCheck (billUpdate invoiceId context)
    (billLog invoiceId context) entries

/-! ## Verification -/

/-- The transition table as the spec states it: the exhaustive list of
allowed (from, to) pairs. -/
def claimedTransitionPairs : List (TimeEntryStatus × TimeEntryStatus) :=
  [(.DRAFT, .SUBMITTED),
   (.SUBMITTED, .APPROVED), (.SUBMITTED, .REJECTED),
   (.APPROVED, .LOCKED), (.APPROVED, .REJECTED),
   (.REJECTED, .DRAFT), (.REJECTED, .SUBMITTED),
   (.LOCKED, .BILLED)]

/-- C1: `validateStatusTransition(from, to)` is valid iff (from, to) is
in the claimed 8-pair table (BILLED allows nothing); when invalid the
error message is exactly "Cannot transition from {from} to {to}"; in
particular DRAFT→APPROVED is invalid with that exact message and
LOCKED→BILLED is valid. -/
theorem C1_validateStatusTransition_table :
    (∀ f t : TimeEntryStatus,
      (validateStatusTransition f t).valid = true ↔
        (f, t) ∈ claimedTransitionPairs) ∧
    (∀ f t : TimeEntryStatus, (validateStatusTransition f t).valid = false →
      (validateStatusTransition f t).error =
        some ("Cannot transition from " ++ statusToString f ++ " to "
          ++ statusToString t)) ∧
    validateStatusTransition TimeEntryStatus.DRAFT TimeEntryStatus.APPROVED =
      { valid := false
        error := some "Cannot transition from DRAFT to APPROVED" } ∧
    (validateStatusTransition TimeEntryStatus.LOCKED
      TimeEntryStatus.BILLED).valid = true := by
  refine ⟨?_, ?_, ?_, ?_⟩ <;> decide

/-- Witness for C1: the second component applied at (DRAFT, APPROVED). -/
theorem C1_validateStatusTransition_table_witness :
    (validateStatusTransition TimeEntryStatus.DRAFT
      TimeEntryStatus.APPROVED).error =
      some ("Cannot transition from " ++ statusToString TimeEntryStatus.DRAFT
        ++ " to " ++ statusToString TimeEntryStatus.APPROVED) :=
  C1_validateStatusTransition_table.2.1 TimeEntryStatus.DRAFT
    TimeEntryStatus.APPROVED (by decide)

/-- C4 (code bug): `validateDuration` computes
`Math.abs(differenceInMinutes(endAt, startAt))`, so an interval whose
end lies 2 hours BEFORE its start has duration 120 and is accepted as
valid, contradicting the documented "invalid whenever end ≤ start";
conversely an interval whose end is 30 seconds AFTER its start
truncates to duration 0 and is rejected with "End time must be after
start time" even though end > start. -/
theorem C4_validateDuration_code_bug_eval :
    validateDuration 7200000 0 = { valid := true, error := none } ∧
    validateDuration 0 30000 =
      { valid := false, error := some "End time must be after start time" } := by
  refine ⟨?_, ?_⟩ <;> decide

/-- The fold inside `pickLatest` returns an element of `a :: cs` whose
`effectiveFrom` is maximal. -/
theorem pickLatest_fold_spec (cs : List RateCard) : ∀ a : RateCard,
    (cs.foldl (fun best card =>
        if best.effectiveFrom < card.effectiveFrom then card else best) a)
      ∈ a :: cs ∧
    (∀ x ∈ a :: cs, x.effectiveFrom ≤
      (cs.foldl (fun best card =>
        if best.effectiveFrom < card.effectiveFrom then card else best)
        a).effectiveFrom) := by
  induction cs with
  | nil =>
      intro a
      simp
  | cons b bs ih =>
      intro a
      simp only [List.foldl_cons]
      by_cases h : a.effectiveFrom < b.effectiveFrom
      · rcases ih b with ⟨hmem, hmax⟩
        simp only [if_pos h]
        refine ⟨List.mem_cons_of_mem a hmem, ?_⟩
        intro x hx
        rcases List.mem_cons.mp hx with h1 | h1
        · rw [h1]
          exact le_of_lt (lt_of_lt_of_le h (hmax b (List.mem_cons_self b bs)))
        · exact hmax x h1
      · rcases ih a with ⟨hmem, hmax⟩
        simp only [if_neg h]
        refine ⟨?_, ?_⟩
        · rcases List.mem_cons.mp hmem with h1 | h1
          · rw [h1]
            exact List.mem_cons_self a (b :: bs)
          · exact List.mem_cons_of_mem a (List.mem_cons_of_mem b h1)
        · intro x hx
          rcases List.mem_cons.mp hx with h1 | h1
          · rw [h1]
            exact hmax a (List.mem_cons_self a bs)
          · rcases List.mem_cons.mp h1 with h2 | h2
            · rw [h2]
              exact le_of_not_lt (fun hc =>
                h (lt_of_le_of_lt (hmax a (List.mem_cons_self a bs)) hc))
            · exact hmax x (List.mem_cons_of_mem a h2)

/-- `pickLatest` returns `none` exactly on the empty list. -/
theorem pickLatest_eq_none_iff (l : List RateCard) :
    pickLatest l = none ↔ l = [] := by
  cases l with
  | nil => simp [pickLatest]
  | cons c cs => simp [pickLatest]

/-- `pickLatest` returns a member with maximal `effectiveFrom`. -/
theorem pickLatest_spec (l : List RateCard) (c : RateCard)
    (h : pickLatest l = some c) :
    c ∈ l ∧ ∀ x ∈ l, x.effectiveFrom ≤ c.effectiveFrom := by
  cases l with
  | nil => simp [pickLatest] at h
  | cons a cs =>
      have hfold := pickLatest_fold_spec cs a
      simp only [pickLatest, Option.some.injEq] at h
      exact h ▸ hfold

/-- The active-card filter of `resolveEffectiveRate` as a standalone
definition (identical to the `activeCards` local). -/
def financeActiveCards (rateCards : List RateCard) (atDate : Int) :
    List RateCard :=
  rateCards.filter (cardActiveAt · atDate)

/-- The project-match tier of `resolveEffectiveRate`. -/
def projectTier (entry : TimeEntry) (rateCards : List RateCard)
    (atDate : Int) : List RateCard :=
  (financeActiveCards rateCards atDate).filter fun card =>
    decide (card.projectId = some entry.projectId)

/-- The client-match tier of `resolveEffectiveRate`. -/
def clientTier (entry : TimeEntry) (rateCards : List RateCard)
    (atDate : Int) : List RateCard :=
  (financeActiveCards rateCards atDate).filter fun card =>
    decide (card.clientId = some entry.clientId)

/-- The developer-default tier of `resolveEffectiveRate`. -/
def developerTier (entry : TimeEntry) (rateCards : List RateCard)
    (atDate : Int) : List RateCard :=
  (financeActiveCards rateCards atDate).filter fun card =>
    decide (card.developerId = some entry.developerId) &&
    decide (card.projectId = none) && decide (card.clientId = none)

/-- C3: `resolveEffectiveRate` only considers active cards effective at
`atDate`; a project-matching card always wins, then client, then
developer default, each tier picking a maximal `effectiveFrom`; `none`
exactly when all three tiers are empty. -/
theorem C3_resolveEffectiveRate_precedence :
    ∀ (entry : TimeEntry) (rateCards : List RateCard) (atDate : Int),
      (∀ c, resolveEffectiveRate entry rateCards atDate = some c →
        (projectTier entry rateCards atDate ≠ [] →
          c ∈ projectTier entry rateCards atDate ∧
          ∀ x ∈ projectTier entry rateCards atDate,
            x.effectiveFrom ≤ c.effectiveFrom) ∧
        (projectTier entry rateCards atDate = [] →
          clientTier entry rateCards atDate ≠ [] →
          c ∈ clientTier entry rateCards atDate ∧
          ∀ x ∈ clientTier entry rateCards atDate,
            x.effectiveFrom ≤ c.effectiveFrom) ∧
        (projectTier entry rateCards atDate = [] →
          clientTier entry rateCards atDate = [] →
          c ∈ developerTier entry rateCards atDate ∧
          ∀ x ∈ developerTier entry rateCards atDate,
            x.effectiveFrom ≤ c.effectiveFrom)) ∧
      (resolveEffectiveRate entry rateCards atDate = none ↔
        projectTier entry rateCards atDate = [] ∧
        clientTier entry rateCards atDate = [] ∧
        developerTier entry rateCards atDate = []) := by
  intro entry rateCards atDate
  have hres : resolveEffectiveRate entry rateCards atDate =
      (match pickLatest (projectTier entry rateCards atDate) with
        | some projectRate => some projectRate
        | none =>
          match pickLatest (clientTier entry rateCards atDate) with
          | some clientRate => some clientRate
          | none => pickLatest (developerTier entry rateCards atDate)) := rfl
  rcases hp : pickLatest (projectTier entry rateCards atDate) with _ | p
  · have hPe : projectTier entry rateCards atDate = [] :=
      (pickLatest_eq_none_iff _).mp hp
    rcases hcl : pickLatest (clientTier entry rateCards atDate) with _ | q
    · have hCe : clientTier entry rateCards atDate = [] :=
        (pickLatest_eq_none_iff _).mp hcl
      constructor
      · intro c hrc
        rw [hres, hp, hcl] at hrc
        exact ⟨fun hne => absurd hPe hne, fun _ hne => absurd hCe hne,
          fun _ _ => pickLatest_spec _ _ hrc⟩
      · rw [hres, hp, hcl]
        constructor
        · intro hd
          exact ⟨hPe, hCe, (pickLatest_eq_none_iff _).mp hd⟩
        · rintro ⟨_, _, hDe⟩
          exact (pickLatest_eq_none_iff _).mpr hDe
    · constructor
      · intro c hrc
        rw [hres, hp, hcl] at hrc
        obtain rfl : q = c := Option.some.inj hrc
        refine ⟨fun hne => absurd hPe hne,
          fun _ _ => pickLatest_spec _ _ hcl, fun _ hCe => ?_⟩
        rw [hCe] at hcl
        simp [pickLatest] at hcl
      · rw [hres, hp, hcl]
        constructor
        · intro h
          exact absurd h (by simp)
        · rintro ⟨_, hCe, _⟩
          rw [hCe] at hcl
          simp [pickLatest] at hcl
  · constructor
    · intro c hrc
      rw [hres, hp] at hrc
      obtain rfl : p = c := Option.some.inj hrc
      refine ⟨fun _ => pickLatest_spec _ _ hp, fun hPe _ => ?_, fun hPe _ => ?_⟩
      · rw [hPe] at hp
        simp [pickLatest] at hp
      · rw [hPe] at hp
        simp [pickLatest] at hp
    · rw [hres, hp]
      constructor
      · intro h
        exact absurd h (by simp)
      · rintro ⟨hPe, _, _⟩
        rw [hPe] at hp
        simp [pickLatest] at hp

/-! ### Concrete fixtures (spec §8 fixture: project 150/hr effective
late, client 130/hr, developer default 100/hr) -/

/-- A billable 120-minute APPROVED entry. -/
def entryFx : TimeEntry :=
  { id := "e1", projectId := "p1", taskId := none, developerId := "d1"
    clientId := "c1", startAt := 0, endAt := 7200000
    durationMinutes := 120, billable := true
    category := TimeCategoryType.BILLABLE, tags := []
    status := TimeEntryStatus.APPROVED, notes := none
    approvedBy := none, approvedAt := none, rejectedBy := none
    rejectedAt := none, rejectionReason := none, lockedAt := none
    billedAt := none, invoiceId := none, createdAt := 0, updatedAt := 0 }

/-- Project-scoped rate card, 150/hr, latest effectiveFrom. -/
def cardProjectFx : RateCard :=
  { id := "r-proj", developerId := none, projectId := some "p1"
    clientId := none, hourlyRate := 150, currency := "USD"
    effectiveFrom := 100, effectiveTo := none, isActive := true
    createdAt := 0, updatedAt := 0 }

/-- Client-scoped rate card, 130/hr. -/
def cardClientFx : RateCard :=
  { id := "r-cli", developerId := none, projectId := none
    clientId := some "c1", hourlyRate := 130, currency := "USD"
    effectiveFrom := 50, effectiveTo := none, isActive := true
    createdAt := 0, updatedAt := 0 }

/-- Developer-default rate card, 100/hr. -/
def cardDevFx : RateCard :=
  { id := "r-dev", developerId := some "d1", projectId := none
    clientId := none, hourlyRate := 100, currency := "USD"
    effectiveFrom := 0, effectiveTo := none, isActive := true
    createdAt := 0, updatedAt := 0 }

/-- All three fixture cards, developer first so precedence (not list
order) decides. -/
def rateCardsFx : List RateCard := [cardDevFx, cardClientFx, cardProjectFx]

/-- Witness for C3: at the fixture, the resolver picks the project card
and it is a maximal member of the project tier. -/
theorem C3_resolveEffectiveRate_precedence_witness :
    cardProjectFx ∈ projectTier entryFx rateCardsFx 200 ∧
    ∀ x ∈ projectTier entryFx rateCardsFx 200,
      x.effectiveFrom ≤ cardProjectFx.effectiveFrom :=
  ((C3_resolveEffectiveRate_precedence entryFx rateCardsFx 200).1
    cardProjectFx (by decide)).1 (by decide)

/-- Round-half-up to 2 decimals, the claim's costing rule. -/
def round2 (x : ℚ) : ℚ := (jsRound (x * 100) : ℚ) / 100

/-- The cost list as claim C6 words it: exactly the billable entries
with a resolvable rate, in input order, each costed via rounding then
round-half-up at the cents level. -/
def claimedEntryCosts (entries : List TimeEntry) (rateCards : List RateCard)
    (interval : RoundingInterval) (atDate : Int) : List EntryCost :=
  entries.filterMap fun entry =>
    if entry.billable then
      (resolveEffectiveRate entry rateCards atDate).map fun rate =>
        mkEntryCost entry rate interval
    else none

/-- C6: `calculateEntryCosts` emits a record exactly for billable
entries with a resolvable rate (others skipped silently), the cost is
round-half-up to 2 decimals of roundedMinutes/60 × hourlyRate, the
rounding interval defaults to FIFTEEN_MINUTES, and the 120-minute
150/hr fixture yields roundedMinutes 120 and cost exactly 300. -/
theorem C6_calculateEntryCosts_spec :
    (∀ entries rateCards interval atDate,
      calculateEntryCosts entries rateCards interval atDate =
        claimedEntryCosts entries rateCards interval atDate) ∧
    (∀ entries rateCards atDate,
      calculateEntryCostsDefault entries rateCards atDate =
        calculateEntryCosts entries rateCards
          RoundingInterval.FIFTEEN_MINUTES atDate) ∧
    (∀ entry rate interval, (mkEntryCost entry rate interval).cost =
      round2 (roundDuration entry.durationMinutes interval / 60
        * rate.hourlyRate)) ∧
    (∀ entry rate interval, (mkEntryCost entry rate interval).roundedMinutes =
      roundDuration entry.durationMinutes interval) ∧
    (calculateEntryCosts [entryFx] rateCardsFx
        RoundingInterval.FIFTEEN_MINUTES 200).map
      (fun r => (r.roundedMinutes, r.hourlyRate, r.cost)) =
        [(120, 150, 300)] := by
  refine ⟨?_, fun _ _ _ => rfl, fun _ _ _ => rfl, fun _ _ _ => rfl, ?_⟩
  · intro entries rateCards interval atDate
    induction entries with
    | nil => rfl
    | cons e rest ih =>
        by_cases hb : e.billable
        · rcases hr : resolveEffectiveRate e rateCards atDate with _ | rate
          · simp [calculateEntryCosts, claimedEntryCosts, hb, hr,
              List.filterMap_cons] at ih ⊢
            exact ih
          · simp [calculateEntryCosts, claimedEntryCosts, hb, hr,
              List.filterMap_cons] at ih ⊢
            exact ih
        · simp [calculateEntryCosts, claimedEntryCosts,
            Bool.of_not_eq_true hb, List.filterMap_cons] at ih ⊢
          exact ih
  · have hres : resolveEffectiveRate entryFx rateCardsFx 200 =
        some cardProjectFx := by decide
    have hbill : entryFx.billable = true := rfl
    simp only [calculateEntryCosts, hres, hbill, Bool.not_true,
      Bool.false_eq_true, if_false, List.map_cons, List.map_nil]
    refine congrArg (· :: []) ?_
    have h1 : (mkEntryCost entryFx cardProjectFx
        RoundingInterval.FIFTEEN_MINUTES).roundedMinutes = 120 := by
      norm_num [mkEntryCost, roundDuration, RoundingInterval.minutes,
        jsRound, Rat.floor, entryFx]
    have h2 : (mkEntryCost entryFx cardProjectFx
        RoundingInterval.FIFTEEN_MINUTES).hourlyRate = 150 := rfl
    have h3 : (mkEntryCost entryFx cardProjectFx
        RoundingInterval.FIFTEEN_MINUTES).cost = 300 := by
      norm_num [mkEntryCost, roundDuration, RoundingInterval.minutes,
        jsRound, Rat.floor, entryFx, cardProjectFx]
    rw [h1, h2, h3]

/-- Shared batch-loop lemma: the first entry whose check fails aborts
the whole call with that entry's error; nothing is returned. -/
theorem processEntries_error (check : TimeEntry → Option WorkflowError)
    (update : TimeEntry → TimeEntry) (mkLog : TimeEntry → AuditLogRec) :
    ∀ (pre : List TimeEntry) (e : TimeEntry) (post : List TimeEntry)
      (err : WorkflowError),
      (∀ x ∈ pre, check x = none) → check e = some err →
      processEntries check update mkLog (pre ++ e :: post) =
        Except.error err := by
  intro pre
  induction pre with
  | nil =>
      intro e post err _ he
      simp [processEntries, he]
  | cons a as ih =>
      intro e post err hpre he
      have ha : check a = none := hpre a (List.mem_cons_self a as)
      have hrec := ih e post err
        (fun x hx => hpre x (List.mem_cons_of_mem a hx)) he
      simp [processEntries, ha, hrec]

/-- Shared batch-loop lemma: when every entry passes its check, the
call returns one updated entry and one audit log per input entry, in
input order. -/
theorem processEntries_ok (check : TimeEntry → Option WorkflowError)
    (update : TimeEntry → TimeEntry) (mkLog : TimeEntry → AuditLogRec) :
    ∀ entries : List TimeEntry, (∀ e ∈ entries, check e = none) →
      processEntries check update mkLog entries =
        Except.ok (entries.map update, entries.map mkLog) := by
  intro entries
  induction entries with
  | nil => intro _; rfl
  | cons a as ih =>
      intro h
      have ha : check a = none := h a (List.mem_cons_self a as)
      have hrec := ih (fun x hx => h x (List.mem_cons_of_mem a hx))
      simp [processEntries, ha, hrec]

/-- C2: each batch workflow call is strictly fail-fast — the first
entry (in input order) failing its guard (or, for submit/approve, its
period-lock check) throws that entry's error and nothing is returned,
even for earlier passing entries; if all entries pass, the result has
exactly one updated entry and one audit log per input entry, in input
order. -/
theorem C2_batch_workflows_fail_fast :
    (∀ ctx locks (pre : List TimeEntry) e post err,
      (∀ x ∈ pre, submitCheck locks x = none) →
      submitCheck locks e = some err →
      submitTimeEntries (pre ++ e :: post) ctx locks = Except.error err) ∧
    (∀ ctx locks entries, (∀ x ∈ entries, submitCheck locks x = none) →
      submitTimeEntries entries ctx locks =
        Except.ok (entries.map (submitUpdate ctx),
          entries.map (submitLog ctx))) ∧
    (∀ ctx locks (pre : List TimeEntry) e post err,
      (∀ x ∈ pre, approveCheck locks x = none) →
      approveCheck locks e = some err →
      approveTimeEntries (pre ++ e :: post) ctx locks = Except.error err) ∧
    (∀ ctx locks entries, (∀ x ∈ entries, approveCheck locks x = none) →
      approveTimeEntries entries ctx locks =
        Except.ok (entries.map (approveUpdate ctx),
          entries.map (approveLog ctx))) ∧
    (∀ ctx (reason : String) (pre : List TimeEntry) e post err,
      (∀ x ∈ pre, rejectCheck x = none) → rejectCheck e = some err →
      rejectTimeEntries (pre ++ e :: post) reason ctx = Except.error err) ∧
    (∀ ctx (reason : String) entries, (∀ x ∈ entries, rejectCheck x = none) →
      rejectTimeEntries entries reason ctx =
        Except.ok (entries.map (rejectUpdate reason ctx),
          entries.map (rejectLog reason ctx))) ∧
    (∀ ctx (reason : Option String) (pre : List TimeEntry) e post err,
      (∀ x ∈ pre, lockCheck x = none) → lockCheck e = some err →
      lockTimeEntries (pre ++ e :: post) reason ctx = Except.error err) ∧
    (∀ ctx (reason : Option String) entries,
      (∀ x ∈ entries, lockCheck x = none) →
      lockTimeEntries entries reason ctx =
        Except.ok (entries.map (lockUpdate ctx),
          entries.map (lockLog reason ctx))) ∧
    (∀ ctx (invoiceId : String) (pre : List TimeEntry) e post err,
      (∀ x ∈ pre, billCheck x = none) → billCheck e = some err →
      billTimeEntries (pre ++ e :: post) invoiceId ctx = Except.error err) ∧
    (∀ ctx (invoiceId : String) entries,
      (∀ x ∈ entries, billCheck x = none) →
      billTimeEntries entries invoiceId ctx =
        Except.ok (entries.map (billUpdate invoiceId ctx),
          entries.map (billLog invoiceId ctx))) :=
  ⟨fun _ locks pre e post err hpre he =>
      processEntries_error (submitCheck locks) _ _ pre e post err hpre he,
   fun _ locks entries h =>
      processEntries_ok (submitCheck locks) _ _ entries h,
   fun _ locks pre e post err hpre he =>
      processEntries_error (approveCheck locks) _ _ pre e post err hpre he,
   fun _ locks entries h =>
      processEntries_ok (approveCheck locks) _ _ entries h,
   fun _ _ pre e post err hpre he =>
      processEntries_error rejectCheck _ _ pre e post err hpre he,
   fun _ _ entries h => processEntries_ok rejectCheck _ _ entries h,
   fun _ _ pre e post err hpre he =>
      processEntries_error lockCheck _ _ pre e post err hpre he,
   fun _ _ entries h => processEntries_ok lockCheck _ _ entries h,
   fun _ _ pre e post err hpre he =>
      processEntries_error billCheck _ _ pre e post err hpre he,
   fun _ _ entries h => processEntries_ok billCheck _ _ entries h⟩

/-! ### Workflow fixtures -/

/-- A fixture workflow context. -/
def ctxFx : WorkflowContext :=
  { userId := "admin-1", userRole := "ADMIN", timestamp := 1000 }

/-- The fixture entry in DRAFT status. -/
def entryDraftFx : TimeEntry := { entryFx with status := TimeEntryStatus.DRAFT }

/-- The fixture entry in SUBMITTED status. -/
def entrySubmittedFx : TimeEntry :=
  { entryFx with status := TimeEntryStatus.SUBMITTED }

/-- Witness for C2: a batch whose first entry passes and whose second
entry is BILLED aborts with the second entry's transition error. -/
theorem C2_batch_workflows_fail_fast_witness :
    submitTimeEntries
        [entryDraftFx, { entryFx with status := TimeEntryStatus.BILLED }]
        ctxFx [] =
      Except.error (WorkflowError.invalidStatusTransition
        TimeEntryStatus.BILLED TimeEntryStatus.SUBMITTED) :=
  C2_batch_workflows_fail_fast.1 ctxFx [] [entryDraftFx]
    { entryFx with status := TimeEntryStatus.BILLED } [] _
    (by decide) (by decide)

/-- C5 counterexample: `rejectTimeEntries` called with the empty reason
on a SUBMITTED entry does NOT throw — it succeeds and produces a
REJECTED entry whose `rejectionReason` is the empty string. -/
theorem C5_reject_empty_reason_succeeds :
    rejectTimeEntries [entrySubmittedFx] "" ctxFx =
      Except.ok ([rejectUpdate "" ctxFx entrySubmittedFx],
        [rejectLog "" ctxFx entrySubmittedFx]) ∧
    (rejectUpdate "" ctxFx entrySubmittedFx).status =
      TimeEntryStatus.REJECTED ∧
    (rejectUpdate "" ctxFx entrySubmittedFx).rejectionReason = some "" :=
  ⟨rfl, rfl, rfl⟩

/-- C5 (amended): `rejectTimeEntries` performs no validation of the
reason at all — for every batch whose statuses permit rejection and ANY
reason (the empty string included) it succeeds, setting
status=REJECTED, rejectedBy, rejectedAt, rejectionReason on every
entry, and every REJECT audit log's metadata carries the reason. -/
theorem C5_reject_no_reason_validation :
    ∀ (entries : List TimeEntry) (reason : String) (ctx : WorkflowContext),
      (∀ e ∈ entries, canRejectTimeEntry e.status = true) →
      rejectTimeEntries entries reason ctx =
        Except.ok (entries.map (rejectUpdate reason ctx),
          entries.map (rejectLog reason ctx)) ∧
      (∀ e : TimeEntry, (rejectUpdate reason ctx e).status =
          TimeEntryStatus.REJECTED ∧
        (rejectUpdate reason ctx e).rejectedBy = some ctx.userId ∧
        (rejectUpdate reason ctx e).rejectedAt = some ctx.timestamp ∧
        (rejectUpdate reason ctx e).rejectionReason = some reason) ∧
      (∀ e : TimeEntry, (rejectLog reason ctx e).metadata.reason =
        some reason) := by
  intro entries reason ctx h
  refine ⟨?_, fun e => ⟨rfl, rfl, rfl, rfl⟩, fun e => rfl⟩
  exact processEntries_ok rejectCheck _ _ entries
    (fun e he => by simp [rejectCheck, h e he])

/-- Witness for C5's amended theorem at a SUBMITTED fixture entry. -/
theorem C5_reject_no_reason_validation_witness :
    rejectTimeEntries [entrySubmittedFx] "Missing task details" ctxFx =
      Except.ok ([rejectUpdate "Missing task details" ctxFx entrySubmittedFx],
        [rejectLog "Missing task details" ctxFx entrySubmittedFx]) :=
  (C5_reject_no_reason_validation [entrySubmittedFx] "Missing task details"
    ctxFx (by decide)).1

/-- C9: from a DRAFT entry with no locks, submit → approve → lock →
bill all succeed, produce exactly one audit log each (4 total), end
BILLED with billedAt and invoiceId set, and each step changes exactly
its documented fields (the structure-update equations) — in particular
approvedBy, lockedAt, billedAt, invoiceId are untouched by earlier
steps. -/
theorem C9_lifecycle_frame (e : TimeEntry) (c1 c2 c3 c4 : WorkflowContext)
    (lockReason : Option String) (inv : String)
    (h : e.status = TimeEntryStatus.DRAFT) :
    ∃ e1 e2 e3 e4 : TimeEntry,
      submitTimeEntries [e] c1 [] = Except.ok ([e1], [submitLog c1 e]) ∧
      e1 = { e with status := TimeEntryStatus.SUBMITTED
                    updatedAt := c1.timestamp } ∧
      approveTimeEntries [e1] c2 [] = Except.ok ([e2], [approveLog c2 e1]) ∧
      e2 = { e1 with status := TimeEntryStatus.APPROVED
                     approvedBy := some c2.userId
                     approvedAt := some c2.timestamp
                     updatedAt := c2.timestamp } ∧
      lockTimeEntries [e2] lockReason c3 =
        Except.ok ([e3], [lockLog lockReason c3 e2]) ∧
      e3 = { e2 with status := TimeEntryStatus.LOCKED
                     lockedAt := some c3.timestamp
                     updatedAt := c3.timestamp } ∧
      billTimeEntries [e3] inv c4 = Except.ok ([e4], [billLog inv c4 e3]) ∧
      e4 = { e3 with status := TimeEntryStatus.BILLED
                     billedAt := some c4.timestamp
                     invoiceId := some inv
                     updatedAt := c4.timestamp } ∧
      e4.status = TimeEntryStatus.BILLED ∧
      e4.billedAt = some c4.timestamp ∧ e4.invoiceId = some inv ∧
      e1.approvedBy = e.approvedBy ∧ e1.approvedAt = e.approvedAt ∧
      e1.rejectedBy = e.rejectedBy ∧ e1.lockedAt = e.lockedAt ∧
      e1.billedAt = e.billedAt ∧ e1.invoiceId = e.invoiceId ∧
      e2.lockedAt = e.lockedAt ∧ e2.billedAt = e.billedAt ∧
      e2.invoiceId = e.invoiceId ∧
      e3.billedAt = e.billedAt ∧ e3.invoiceId = e.invoiceId := by
  refine ⟨submitUpdate c1 e, approveUpdate c2 (submitUpdate c1 e),
    lockUpdate c3 (approveUpdate c2 (submitUpdate c1 e)),
    billUpdate inv c4 (lockUpdate c3 (approveUpdate c2 (submitUpdate c1 e))),
    ?_, rfl, ?_, rfl, ?_, rfl, ?_, rfl, rfl, rfl, rfl, rfl, rfl, rfl, rfl,
    rfl, rfl, rfl, rfl, rfl, rfl, rfl⟩
  · have hc : submitCheck [] e = none := by
      simp [submitCheck, canSubmitTimeEntry, h, isPeriodLocked]
    simp [submitTimeEntries, processEntries, hc]
  · have hc : approveCheck [] (submitUpdate c1 e) = none := by
      simp [approveCheck, canApproveTimeEntry, submitUpdate, isPeriodLocked]
    simp [approveTimeEntries, processEntries, hc]
  · have hc : lockCheck (approveUpdate c2 (submitUpdate c1 e)) = none := by
      simp [lockCheck, canLockTimeEntry, approveUpdate]
    simp [lockTimeEntries, processEntries, hc]
  · have hc : billCheck
        (lockUpdate c3 (approveUpdate c2 (submitUpdate c1 e))) = none := by
      simp [billCheck, lockUpdate]
    simp [billTimeEntries, processEntries, hc]

/-- Witness for C9 at the DRAFT fixture entry. -/
theorem C9_lifecycle_frame_witness :
    ∃ e1 : TimeEntry, submitTimeEntries [entryDraftFx] ctxFx [] =
      Except.ok ([e1], [submitLog ctxFx entryDraftFx]) := by
  obtain ⟨e1, _, _, _, h1, _⟩ :=
    C9_lifecycle_frame entryDraftFx ctxFx ctxFx ctxFx ctxFx none "INV-001" rfl
  exact ⟨e1, h1⟩

/-- C7: `validateLockOverlap` throws a ConflictError iff some existing
ACTIVE lock of the SAME scope overlaps the candidate's period under
EXCLUSIVE bounds; additionally, two locks that only touch at a boundary
never raise (inactive or different-scope locks are excluded by the
iff). -/
theorem C7_validateLockOverlap_iff :
    (∀ (newLock : CreateLockParams) (existingLocks : List TimeLock),
      newLock.periodStart ≤ newLock.periodEnd →
      (∀ l ∈ existingLocks, l.periodStart ≤ l.periodEnd) →
      ((∃ err, validateLockOverlap newLock existingLocks =
          Except.error err) ↔
        ∃ l ∈ existingLocks, l.isActive = true ∧
          sameScope newLock l = true ∧
          newLock.periodStart < l.periodEnd ∧
          l.periodStart < newLock.periodEnd)) ∧
    (∀ (newLock : CreateLockParams) (l : TimeLock),
      l.periodEnd = newLock.periodStart ∨ newLock.periodEnd = l.periodStart →
      validateLockOverlap newLock [l] = Except.ok ()) := by
  constructor
  · intro newLock existingLocks _ _
    rcases hf : (existingLocks.filter (·.isActive)).find? (fun lock =>
        sameScope newLock lock &&
        overlapExcl newLock.periodStart newLock.periodEnd
          lock.periodStart lock.periodEnd) with _ | lock
    · have hf2 := List.find?_eq_none.mp hf
      constructor
      · rintro ⟨err, herr⟩
        rw [validateLockOverlap] at herr
        rw [hf] at herr
        simp at herr
      · rintro ⟨l, hl, hact, hsc, h1, h2⟩
        have hmem : l ∈ existingLocks.filter (·.isActive) :=
          List.mem_filter.mpr ⟨hl, hact⟩
        have hnp := hf2 l hmem
        simp only [hsc, overlapExcl, Bool.true_and, decide_eq_true_eq]
          at hnp
        exact absurd ⟨h1, h2⟩ hnp
    · constructor
      · intro _
        have hpred := List.find?_some hf
        have hmem := List.mem_of_find?_eq_some hf
        simp only [Bool.and_eq_true, decide_eq_true_eq, overlapExcl]
          at hpred
        rcases List.mem_filter.mp hmem with ⟨hmem2, hact⟩
        exact ⟨lock, hmem2, hact, hpred.1, hpred.2⟩
      · intro _
        refine ⟨⟨lock.periodStart, lock.periodEnd⟩, ?_⟩
        rw [validateLockOverlap]
        rw [hf]
  · intro newLock l h
    have hpred : (fun lock =>
        sameScope newLock lock &&
        overlapExcl newLock.periodStart newLock.periodEnd
          lock.periodStart lock.periodEnd) l = false := by
      simp only [overlapExcl]
      rcases h with h | h
      · have : ¬(newLock.periodStart < l.periodEnd ∧
            l.periodStart < newLock.periodEnd) := by omega
        simp [this]
      · have : ¬(newLock.periodStart < l.periodEnd ∧
            l.periodStart < newLock.periodEnd) := by omega
        simp [this]
    rw [validateLockOverlap]
    by_cases hact : l.isActive
    · simp [List.filter, hact, List.find?, hpred]
    · simp [List.filter, Bool.of_not_eq_true hact]

/-! ### Lock fixtures -/

/-- An active project-scoped fixture lock over [50, 150]. -/
def lockFx : TimeLock :=
  { id := "L1", projectId := some "p1", clientId := none
    periodStart := 50, periodEnd := 150, reason := "month-end close"
    lockedBy := "admin-1", lockedAt := 0, unlockedBy := none
    unlockedAt := none, isActive := true }

/-- A candidate lock on the same project over [0, 100] (interior
overlap with `lockFx`). -/
def newLockFx : CreateLockParams :=
  { projectId := some "p1", clientId := none, periodStart := 0
    periodEnd := 100, reason := "quarter close", lockedBy := "admin-1" }

/-- Witness for C7: the fixture candidate conflicts with the
overlapping same-project active lock. -/
theorem C7_validateLockOverlap_iff_witness :
    ∃ err, validateLockOverlap newLockFx [lockFx] = Except.error err :=
  (C7_validateLockOverlap_iff.1 newLockFx [lockFx] (by decide)
    (by decide)).mpr ⟨lockFx, by decide, by decide, by decide, by decide,
      by decide⟩

/-- An active lock for an unrelated project, same period as the
fixture entry's interval. -/
def lockOtherFx : TimeLock :=
  { id := "L2", projectId := some "p2", clientId := none
    periodStart := 0, periodEnd := 7200000, reason := "other project"
    lockedBy := "admin-1", lockedAt := 0, unlockedBy := none
    unlockedAt := none, isActive := true }

/-- C8: boundary-instant asymmetry — an entry meeting a scope-matching
active lock only at a boundary instant still conflicts
(`checkEntryLockConflict` uses inclusive bounds), whereas two entry
intervals that merely touch never overlap under `detectOverlap`
(exclusive bounds); intervals sharing an interior instant overlap under
both tests. -/
theorem C8_lock_boundary_asymmetry :
    (∀ (entry : TimeEntry) (lock : TimeLock),
      lock.isActive = true → scopeMatchesEntry lock entry = true →
      entry.startAt = lock.periodEnd → entry.startAt ≤ entry.endAt →
      lock.periodStart ≤ lock.periodEnd →
      checkEntryLockConflict entry [lock] = some lock) ∧
    (∀ a b : TimeInterval, a.endAt = b.startAt ∨ b.endAt = a.startAt →
      detectOverlap a b = false) ∧
    (∀ (a b : TimeInterval) (t : Int),
      a.startAt < t → t < a.endAt → b.startAt < t → t < b.endAt →
      detectOverlap a b = true ∧
      overlapIncl a.startAt a.endAt b.startAt b.endAt = true) := by
  refine ⟨?_, ?_, ?_⟩
  · intro entry lock hact hscope heq hwf1 hwf2
    have h1 : entry.startAt ≤ lock.periodEnd := le_of_eq heq
    have h2 : lock.periodStart ≤ entry.endAt :=
      hwf2.trans (by rw [← heq]; exact hwf1)
    have hover : overlapIncl entry.startAt entry.endAt
        lock.periodStart lock.periodEnd = true := by
      simp [overlapIncl, h1, h2]
    simp [checkEntryLockConflict, List.filter, hact, List.find?,
      hscope, hover]
  · intro a b h
    simp only [detectOverlap, overlapExcl, decide_eq_false_iff_not]
    omega
  · intro a b t h1 h2 h3 h4
    constructor
    · simp only [detectOverlap, overlapExcl, decide_eq_true_eq]
      omega
    · simp only [overlapIncl, decide_eq_true_eq]
      omega

/-- The fixture entry shrunk to the single boundary instant at
`lockFx`'s period end. -/
def entryBoundaryFx : TimeEntry :=
  { entryFx with startAt := 150, endAt := 150 }

/-- Witness for C8: the zero-length entry at exactly the lock's period
end is reported as locked. -/
theorem C8_lock_boundary_asymmetry_witness :
    checkEntryLockConflict entryBoundaryFx [lockFx] = some lockFx :=
  C8_lock_boundary_asymmetry.1 entryBoundaryFx lockFx (by decide)
    (by decide) (by decide) (by decide) (by decide)

/-- The lock shape handed to the workflow functions, built from a
`TimeLock` (callers pass `{ periodStart, periodEnd, isActive }`). -/
def lockPeriodOf (lock : TimeLock) : LockPeriod :=
  ⟨lock.periodStart, lock.periodEnd, lock.isActive⟩

/-- C10 (implicit): `isPeriodLocked` does no scope matching — it is
true iff SOME active lock overlaps the interval inclusively, whatever
its project or client; consequently an active lock for an unrelated
project still blocks submission of a DRAFT entry touching its period,
even though the scope-filtered `checkEntryLockConflict` and
`checkPeriodLockConflict` both return null for it. -/
theorem C10_isPeriodLocked_ignores_scope :
    (∀ (s t : Int) (locks : List LockPeriod),
      s ≤ t → (∀ l ∈ locks, l.periodStart ≤ l.periodEnd) →
      (isPeriodLocked s t locks = true ↔
        ∃ l ∈ locks, l.isActive = true ∧ s ≤ l.periodEnd ∧
          l.periodStart ≤ t)) ∧
    (∀ (entry : TimeEntry) (lock : TimeLock) (ctx : WorkflowContext),
      entry.status = TimeEntryStatus.DRAFT →
      lock.isActive = true →
      lock.projectId ≠ some entry.projectId →
      lock.clientId ≠ some entry.clientId →
      entry.startAt ≤ lock.periodEnd → lock.periodStart ≤ entry.endAt →
      checkEntryLockConflict entry [lock] = none ∧
      checkPeriodLockConflict entry.startAt entry.endAt
        (some entry.projectId) (some entry.clientId) [lock] = none ∧
      submitTimeEntries [entry] ctx [lockPeriodOf lock] =
        Except.error (WorkflowError.periodLocked entry.startAt
          entry.endAt)) := by
  constructor
  · intro s t locks _ _
    simp [isPeriodLocked, List.any_eq_true, overlapIncl, Bool.and_eq_true,
      decide_eq_true_eq, and_assoc]
  · intro entry lock ctx hst hact hp hc h5 h6
    have hsc : scopeMatchesEntry lock entry = false := by
      rw [scopeMatchesEntry]
      rcases hlp : lock.projectId with _ | p <;>
        rcases hlc : lock.clientId with _ | c <;>
        simp_all
    refine ⟨?_, ?_, ?_⟩
    · simp [checkEntryLockConflict, List.filter, hact, List.find?, hsc]
    · simp [checkPeriodLockConflict, List.filter, hact, List.find?, hp, hc]
    · have hchk : submitCheck [lockPeriodOf lock] entry =
          some (WorkflowError.periodLocked entry.startAt entry.endAt) := by
        simp [submitCheck, canSubmitTimeEntry, hst, isPeriodLocked,
          lockPeriodOf, overlapIncl, hact, h5, h6]
      exact processEntries_error (submitCheck [lockPeriodOf lock]) _ _
        [] entry [] _ (by simp) hchk

/-- Witness for C10: the unrelated-project active lock blocks
submission of the DRAFT fixture entry while both scope-filtered checks
ignore it. -/
theorem C10_isPeriodLocked_ignores_scope_witness :
    checkEntryLockConflict entryDraftFx [lockOtherFx] = none ∧
    checkPeriodLockConflict entryDraftFx.startAt entryDraftFx.endAt
      (some entryDraftFx.projectId) (some entryDraftFx.clientId)
      [lockOtherFx] = none ∧
    submitTimeEntries [entryDraftFx] ctxFx [lockPeriodOf lockOtherFx] =
      Except.error (WorkflowError.periodLocked entryDraftFx.startAt
        entryDraftFx.endAt) :=
  C10_isPeriodLocked_ignores_scope.2 entryDraftFx lockOtherFx ctxFx rfl rfl
    (by decide) (by decide) (by decide) (by decide)

end Timelog
